import Mathlib

/-!
Verification development for the Sui-overflow share-gating server.

The definitions below are a shallow embedding of the server's database
operations (`src/server/src/db/operations.rs`), the per-event trade
processing shared by the Monad and Sui chain adapters
(`src/server/src/block_chain/monad.rs`, `src/server/src/block_chain/sui.rs`),
the synchronous signature-verification HTTP handler
(`src/server/src/routes/signature.rs`), and the pure fragments of the two
sync loops (batch-window computation, checkpoint updates, cursor handling).

Database tables are modelled as association lists of rows; SQL `UPDATE`
statements update every matching row (the primary keys guarantee at most one
in practice, but nothing below depends on that) and `fetch_optional` returns
the first match.  `NUMERIC` amounts are modelled as `Int`: every value the
program stores comes from a `u64`/`U256` decimal string, and sells subtract
unconditionally, so balances live in `Int`.  Rust panics (`unwrap` on a
parse, slicing a short string, `create_blockchain` on an unknown chain) are
modelled as `Except.error ()`.
-/

namespace SuiOverflow

/-- A row of the `trades` table: the running share balance keyed by
(trader, subject, chain_type). -/
structure TradeRow where
  trader : String
  subject : String
  chain_type : String
  share_amount : Int
deriving Repr, DecidableEq

/-- A row of the `user_mappings` table: links an on-chain address to a
Telegram identity, with the "has been banned" flag. -/
structure UserMappingRow where
  address : String
  chain_type : String
  telegram_id : String
  is_banned : Bool
deriving Repr, DecidableEq

/-- A row of the `telegram_bots` table: the bot registered for a subject's
chat group. -/
structure TelegramBotRow where
  subject_address : String
  chain_type : String
  bot_token : String
  chat_group_id : String
deriving Repr, DecidableEq

/-- The slice of the Postgres database the trade pipeline touches. -/
structure Db where
  trades : List TradeRow
  user_mappings : List UserMappingRow
  telegram_bots : List TelegramBotRow
deriving Repr, DecidableEq

/-- `WHERE trader = $1 AND subject = $2 AND chain_type = $3` on `trades`. -/
def tradeKeyMatches (trader subject chain_type : String) (r : TradeRow) : Bool :=
  r.trader == trader && r.subject == subject && r.chain_type == chain_type

/-- First `trades` row for the key, as returned by `fetch_optional`. -/
def findTrade (db : Db) (trader subject chain_type : String) : Option TradeRow :=
  db.trades.find? (tradeKeyMatches trader subject chain_type)

/-- First `user_mappings` row for `WHERE address = $1 AND chain_type = $2`. -/
def findUserMapping (db : Db) (address chain_type : String) : Option UserMappingRow :=
  db.user_mappings.find? (fun r => r.address == address && r.chain_type == chain_type)

/-- First `telegram_bots` row for `WHERE subject_address = $1 AND chain_type = $2`. -/
def findTelegramBot (db : Db) (subject chain_type : String) : Option TelegramBotRow :=
  db.telegram_bots.find? (fun r => r.subject_address == subject && r.chain_type == chain_type)

/-- First `telegram_bots` row for `WHERE chat_group_id = $1 AND chain_type = $2`
(the lookup `handle_verify` performs). -/
def findTelegramBotByChat (db : Db) (chat_id chain_type : String) : Option TelegramBotRow :=
  db.telegram_bots.find? (fun r => r.chat_group_id == chat_id && r.chain_type == chain_type)

/-- `process_buy_trade` (operations.rs:77-98): `INSERT .. ON CONFLICT
(trader, subject, chain_type) DO UPDATE SET share_amount =
trades.share_amount + $3`.  An upsert: add to the existing row, or insert a
fresh row holding `share_amount`. -/
def process_buy_trade (db : Db) (trader subject : String) (share_amount : Int)
    (chain_type : String) : Db :=
  if (findTrade db trader subject chain_type).isSome then
    { db with trades := db.trades.map (fun r =>
        if tradeKeyMatches trader subject chain_type r then
          { r with share_amount := r.share_amount + share_amount }
        else r) }
  else
    { db with trades := db.trades ++ [⟨trader, subject, chain_type, share_amount⟩] }

/-- `process_sell_trade` (operations.rs:101-144): `UPDATE trades SET
share_amount = share_amount - $1 WHERE .. RETURNING share_amount`.  If no row
matched, log and return `(false, none)`.  If the post-update balance is
exactly zero, look up the trader's `user_mappings` row; when one exists
return `(true, some telegram_id)`, otherwise `(false, none)`. -/
def process_sell_trade (db : Db) (trader subject : String) (share_amount : Int)
    (chain_type : String) : Db × Bool × Option String :=
  match findTrade db trader subject chain_type with
  | some row =>
      let db1 : Db := { db with trades := db.trades.map (fun r =>
        if tradeKeyMatches trader subject chain_type r then
          { r with share_amount := r.share_amount - share_amount }
        else r) }
      if row.share_amount - share_amount = 0 then
        match findUserMapping db trader chain_type with
        | some u => (db1, true, some u.telegram_id)
        | none => (db1, false, none)
      else (db1, false, none)
  | none => (db, false, none)

/-- `get_user_subject_shares` (operations.rs:147-166): the stored balance for
the key, `0` when no row exists. -/
def get_user_subject_shares (db : Db) (trader subject chain_type : String) : Int :=
  match findTrade db trader subject chain_type with
  | some row => row.share_amount
  | none => 0

/-- Rust's `str::parse::<u64>`: an optional leading `+`, then one or more
ASCII decimal digits, value below `2 ^ 64`; anything else is an error. -/
def parse_u64 (s : String) : Option Nat :=
  let body := match s.data with
    | '+' :: rest => rest
    | cs => cs
  match body with
  | [] => none
  | _ =>
    match body.foldl (fun acc c =>
        match acc with
        | some n => if c.isDigit then some (n * 10 + (c.toNat - 48)) else none
        | none => none) (some 0) with
    | some n => if n < 2 ^ 64 then some n else none
    | none => none

/-- A decoded trade event, after the chain-specific payload has been decoded:
`trader`/`subject` are the normalized address strings and `share_amount` the
(non-negative) amount parsed from a `u64`/`U256`. -/
structure Trade where
  trader : String
  subject : String
  is_buy : Bool
  share_amount : Nat
deriving Repr, DecidableEq

/-- A `restrict_chat_member` call made by the gating logic: `revoke = true`
sets the empty permission set (a ban), `revoke = false` restores the full
permission set (an unban). -/
structure GateDecision where
  chat_group_id : String
  telegram_user_id : Nat
  revoke : Bool
deriving Repr, DecidableEq

/-- `MonadBlockchain::process_trade_event` (monad.rs:45-153); the Sui
adapter's `process_trade_event` (sui.rs:111-227) is character-for-character
the same logic once the payload is decoded, with `chain_type` its
`get_name()`.  Returns the new database plus the list of gate decisions
(`restrict_chat_member` calls) issued while processing the event;
`Except.error ()` is the `user.telegram_id.parse().unwrap()` panic on a
non-numeric stored Telegram id.  The external Telegram call itself is
modelled as succeeding. -/
def process_trade_event (chain_type : String) (event : Trade) (db : Db) :
    Except Unit (Db × List GateDecision) :=
  if event.is_buy then
    -- Buy operation, increase shares; then the banned-user unban check.
    let db1 := process_buy_trade db event.trader event.subject
      (Int.ofNat event.share_amount) chain_type
    match findUserMapping db1 event.trader chain_type with
    | some user =>
      if user.is_banned then
        match findTrade db1 event.trader event.subject chain_type with
        | some share =>
          if share.share_amount > 0 then
            match findTelegramBot db1 event.subject chain_type with
            | some bot_info =>
              match parse_u64 user.telegram_id with
              | some user_id => .ok (db1, [⟨bot_info.chat_group_id, user_id, false⟩])
              | none => .error ()
            | none => .ok (db1, [])
          else .ok (db1, [])
        | none => .ok (db1, [])
      else .ok (db1, [])
    | none => .ok (db1, [])
  else
    -- Sell operation, decrease shares; then the zero-balance ban check.
    match process_sell_trade db event.trader event.subject
        (Int.ofNat event.share_amount) chain_type with
    | (db1, should_ban, telegram_id_opt) =>
      if should_ban then
        match telegram_id_opt with
        | some telegram_id =>
          match findTelegramBot db1 event.subject chain_type with
          | some bot_info =>
            match parse_u64 telegram_id with
            | some user_id =>
              .ok ({ db1 with user_mappings := db1.user_mappings.map (fun r =>
                      if r.address == event.trader && r.chain_type == chain_type then
                        { r with is_banned := true }
                      else r) },
                   [⟨bot_info.chat_group_id, user_id, true⟩])
            | none => .error ()
          | none => .ok (db1, [])
        | none => .ok (db1, [])
      else .ok (db1, [])

/-- Apply a sequence of buy/sell amounts for one (trader, subject, chain)
key in chain order through the two ledger operations; `(true, a)` is
`process_buy_trade` with amount `a`, `(false, a)` is `process_sell_trade`. -/
def apply_trades (db : Db) (trader subject chain_type : String)
    (events : List (Bool × Nat)) : Db :=
  events.foldl (fun d e =>
    if e.1 then process_buy_trade d trader subject (Int.ofNat e.2) chain_type
    else (process_sell_trade d trader subject (Int.ofNat e.2) chain_type).1) db

/-- Sum of the buy amounts of a sequence. -/
def sumBuys : List (Bool × Nat) → Int
  | [] => 0
  | e :: rest => (if e.1 then Int.ofNat e.2 else 0) + sumBuys rest

/-- Sum of the sell amounts of a sequence. -/
def sumSells : List (Bool × Nat) → Int
  | [] => 0
  | e :: rest => (if e.1 then 0 else Int.ofNat e.2) + sumSells rest

/-! ## The synchronous verification endpoint (routes/signature.rs) -/

/-- The JSON body of a `/verify-signature` request (signature.rs:14-21). -/
structure ChallengeRequest where
  challenge : String
  chat_id : String
  signature : String
  user : String
  chain_type : Option String
deriving Repr, DecidableEq

/-- The response envelope (signature.rs:23-28). -/
structure ChallengeResponse where
  success : Bool
  error : Option String
deriving Repr, DecidableEq

/-- The HTTP status classes `handle_verify` produces. -/
inductive HttpStatus where
  | ok
  | badRequest
  | internalServerError
deriving Repr, DecidableEq

/-- What one `handle_verify` call did: the status and body returned, the
`user_mappings` upsert it committed (address, telegram_id, chain_type), and
the `restrict_chat_member` call it made. -/
structure VerifyOutcome where
  status : HttpStatus
  response : ChallengeResponse
  mapping_write : Option (String × String × String)
  decision : Option GateDecision
deriving Repr, DecidableEq

/-- The `user_mappings` upsert in `handle_verify` (signature.rs:100-109):
`INSERT .. ON CONFLICT (address, chain_type) DO UPDATE SET telegram_id = $2`.
The `is_banned` column is absent from the insert list, so a fresh row gets
the schema default `false`. -/
def upsert_user_mapping (db : Db) (address telegram_id chain_type : String) : Db :=
  if (findUserMapping db address chain_type).isSome then
    { db with user_mappings := db.user_mappings.map (fun r =>
        if r.address == address && r.chain_type == chain_type then
          { r with telegram_id := telegram_id }
        else r) }
  else
    { db with user_mappings := db.user_mappings ++ [⟨address, chain_type, telegram_id, false⟩] }

/-- `handle_verify` (signature.rs:49-170).  The chain adapter's
`verify_signature` and `get_shares_balance` are the parameters `verify` and
`balance_of` (for Monad they wrap elliptic-curve recovery and an RPC call,
both outside this embedding; for Sui, `verify` is `sui_verify_signature`
below); `restrict_ok` is the outcome of the external
`restrict_chat_member` call.  `Except.error ()` models the two panics on
this path: `create_blockchain` on a chain type other than `"monad"`/`"sui"`,
and `data.challenge.parse::<u64>().unwrap()` on a non-numeric challenge. -/
def handle_verify (db : Db) (verify : String → String → Except String String)
    (balance_of : String → String → Except String Nat) (restrict_ok : Bool)
    (req : ChallengeRequest) : Except Unit (Db × VerifyOutcome) :=
  let chain_type := req.chain_type.getD "monad"
  match findTelegramBotByChat db req.chat_id chain_type with
  | none =>
    .ok (db, ⟨.badRequest,
      ⟨false, some ("Bot not found for this chat_id in " ++ chain_type ++ " chain")⟩,
      none, none⟩)
  | some bot_info =>
    if chain_type == "monad" || chain_type == "sui" then
      match verify (if chain_type == "sui" then req.user else req.challenge) req.signature with
      | .ok verified_address =>
        if req.user == verified_address then
          -- Address matches: save the (address, telegram id) mapping,
          -- then check the live share balance.
          let db1 := upsert_user_mapping db verified_address req.challenge chain_type
          let write := some (verified_address, req.challenge, chain_type)
          let has_shares : Bool := match balance_of bot_info.subject_address verified_address with
            | .ok balance => decide (balance > 0)
            | .error _ => false
          if has_shares then
            match parse_u64 req.challenge with
            | none => .error ()
            | some user_id =>
              if restrict_ok then
                .ok (db1, ⟨.ok, ⟨true, none⟩, write,
                  some ⟨bot_info.chat_group_id, user_id, false⟩⟩)
              else
                .ok (db1, ⟨.internalServerError,
                  ⟨false, some "Telegram restrict_chat_member failed"⟩, write,
                  some ⟨bot_info.chat_group_id, user_id, false⟩⟩)
          else
            .ok (db1, ⟨.ok, ⟨true, none⟩, write, none⟩)
        else
          -- Address mismatch: fall through to the generic 200 response.
          .ok (db, ⟨.ok, ⟨true, none⟩, none, none⟩)
      | .error _ =>
        -- Verification error: fall through to the generic 200 response.
        .ok (db, ⟨.ok, ⟨true, none⟩, none, none⟩)
    else .error ()

/-! ## Sui signature verification (sui.rs:449-461) -/

/-- Value of one character of the standard base64 alphabet. -/
def base64CharVal? (c : Char) : Option Nat :=
  let n := c.toNat
  if 65 ≤ n && n ≤ 90 then some (n - 65)
  else if 97 ≤ n && n ≤ 122 then some (n - 97 + 26)
  else if 48 ≤ n && n ≤ 57 then some (n - 48 + 52)
  else if n == 43 then some 62
  else if n == 47 then some 63
  else none

/-- Decode base64 in groups of four symbols, as `BASE64_STANDARD.decode`
does: padding is required and canonical (so the total length is a multiple
of four, `=` appears only as the final one or two symbols), and the unused
trailing bits of the final symbol must be zero. -/
def base64DecodeGroups : List Char → Option (List Nat)
  | [] => some []
  | c1 :: c2 :: c3 :: c4 :: rest =>
    match base64CharVal? c1, base64CharVal? c2 with
    | some v1, some v2 =>
      if c3 == '=' then
        if c4 == '=' && rest == [] then
          if v2 % 16 == 0 then some [v1 * 4 + v2 / 16] else none
        else none
      else
        match base64CharVal? c3 with
        | some v3 =>
          if c4 == '=' then
            if rest == [] then
              if v3 % 4 == 0 then some [v1 * 4 + v2 / 16, v2 % 16 * 16 + v3 / 4]
              else none
            else none
          else
            match base64CharVal? c4 with
            | some v4 =>
              match base64DecodeGroups rest with
              | some bytes =>
                some ([v1 * 4 + v2 / 16, v2 % 16 * 16 + v3 / 4, v3 % 4 * 64 + v4] ++ bytes)
              | none => none
            | none => none
        | none => none
    | _, _ => none
  | _ => none

/-- `BASE64_STANDARD.decode` over the characters of the string. -/
def base64Decode (s : String) : Option (List Nat) :=
  base64DecodeGroups s.data

/-- `SuiBlockchain::verify_signature` (sui.rs:449-461): decode the base64
signature, failing on a decode error; then return the caller-supplied
`challenge` (which this endpoint passes the claimed address in) without any
cryptographic check. -/
def sui_verify_signature (challenge signature : String) : Except String String :=
  match base64Decode signature with
  | none => .error "Cannot decode signature"
  | some _ => .ok challenge

/-! ## JSON values and `serde_json::from_str::<Value>` (used by
`SuiBlockchain::get_events`, sui.rs:246-272)

The parser below implements the JSON grammar `serde_json` accepts for a
generic `Value`: a single value, optionally surrounded by whitespace, with
the standard object/array/string/number/literal productions.  One
approximation: a `\u` escape is decoded as the single code point it names
(no surrogate-pair pairing), which does not affect which strings parse
except for lone-surrogate escapes; no input below uses `\u` at all. -/

/-- A JSON value.  Numbers keep their source lexeme: nothing in the claims
depends on numeric values, only on which strings parse. -/
inductive Json where
  | null
  | boolean (b : Bool)
  | num (lexeme : String)
  | str (s : String)
  | arr (elems : List Json)
  | obj (fields : List (String × Json))
deriving Inhabited

/-- Drop leading JSON whitespace (space, tab, line feed, carriage return). -/
def skipWs : List Char → List Char
  | c :: rest =>
    if c == ' ' || c == '\t' || c == '\n' || c == '\r' then skipWs rest
    else c :: rest
  | [] => []

/-- Hexadecimal digit value, upper or lower case. -/
def hexDigitVal? (c : Char) : Option Nat :=
  let n := c.toNat
  if 48 ≤ n && n ≤ 57 then some (n - 48)
  else if 97 ≤ n && n ≤ 102 then some (n - 97 + 10)
  else if 65 ≤ n && n ≤ 70 then some (n - 65 + 10)
  else none

/-- Parse the body of a JSON string after the opening quote: returns the
decoded characters and the input after the closing quote. -/
def parseStringChars : List Char → Option (List Char × List Char)
  | [] => none
  | '"' :: rest => some ([], rest)
  | '\\' :: esc :: rest =>
    match esc with
    | '"' => (parseStringChars rest).map (fun p => ('"' :: p.1, p.2))
    | '\\' => (parseStringChars rest).map (fun p => ('\\' :: p.1, p.2))
    | '/' => (parseStringChars rest).map (fun p => ('/' :: p.1, p.2))
    | 'b' => (parseStringChars rest).map (fun p => (Char.ofNat 8 :: p.1, p.2))
    | 'f' => (parseStringChars rest).map (fun p => (Char.ofNat 12 :: p.1, p.2))
    | 'n' => (parseStringChars rest).map (fun p => ('\n' :: p.1, p.2))
    | 'r' => (parseStringChars rest).map (fun p => ('\r' :: p.1, p.2))
    | 't' => (parseStringChars rest).map (fun p => ('\t' :: p.1, p.2))
    | 'u' =>
      match rest with
      | h1 :: h2 :: h3 :: h4 :: rest2 =>
        match hexDigitVal? h1, hexDigitVal? h2, hexDigitVal? h3, hexDigitVal? h4 with
        | some a, some b, some c, some d =>
          (parseStringChars rest2).map (fun p =>
            (Char.ofNat (a * 4096 + b * 256 + c * 16 + d) :: p.1, p.2))
        | _, _, _, _ => none
      | _ => none
    | _ => none
  | c :: rest =>
    if c.toNat < 32 then none
    else (parseStringChars rest).map (fun p => (c :: p.1, p.2))

/-- Take a maximal run of decimal digits. -/
def takeDigits : List Char → List Char × List Char
  | [] => ([], [])
  | c :: rest =>
    if c.isDigit then
      let p := takeDigits rest
      (c :: p.1, p.2)
    else ([], c :: rest)

/-- Parse an optional exponent part `([eE][+-]?[0-9]+)?` of a number. -/
def parseExpPart : List Char → Option (List Char × List Char)
  | [] => some ([], [])
  | c :: rest =>
    if c == 'e' || c == 'E' then
      let (sgn, rest1) := match rest with
        | s :: r2 => if s == '+' || s == '-' then ([s], r2) else (([] : List Char), rest)
        | [] => ([], rest)
      match rest1 with
      | d :: _ =>
        if d.isDigit then
          let (ds, rest2) := takeDigits rest1
          some (c :: (sgn ++ ds), rest2)
        else none
      | [] => none
    else some ([], c :: rest)

/-- Parse an optional fraction part `(.[0-9]+)?` followed by an optional
exponent part. -/
def parseFracExp : List Char → Option (List Char × List Char)
  | '.' :: rest =>
    match rest with
    | d :: _ =>
      if d.isDigit then
        let (ds, rest2) := takeDigits rest
        (parseExpPart rest2).map (fun p => ('.' :: ds ++ p.1, p.2))
      else none
    | [] => none
  | cs => parseExpPart cs

/-- Parse a JSON number token `-?(0|[1-9][0-9]*)(.[0-9]+)?([eE][+-]?[0-9]+)?`. -/
def parseNumberToken (cs : List Char) : Option (List Char × List Char) :=
  let (neg, cs1) := match cs with
    | '-' :: rest => ([('-' : Char)], rest)
    | _ => (([] : List Char), cs)
  match cs1 with
  | [] => none
  | c :: rest =>
    if c == '0' then
      (parseFracExp rest).map (fun p => (neg ++ [c] ++ p.1, p.2))
    else if c.isDigit then
      let (ds, rest2) := takeDigits rest
      (parseFracExp rest2).map (fun p => (neg ++ (c :: ds) ++ p.1, p.2))
    else none

mutual

/-- Parse one JSON value (fuelled recursive descent). -/
def parseValue : Nat → List Char → Option (Json × List Char)
  | 0, _ => none
  | Nat.succ fuel, cs =>
    match skipWs cs with
    | 'n' :: 'u' :: 'l' :: 'l' :: rest => some (.null, rest)
    | 't' :: 'r' :: 'u' :: 'e' :: rest => some (.boolean true, rest)
    | 'f' :: 'a' :: 'l' :: 's' :: 'e' :: rest => some (.boolean false, rest)
    | '"' :: rest =>
      (parseStringChars rest).map (fun p => (.str (String.mk p.1), p.2))
    | '[' :: rest =>
      match skipWs rest with
      | ']' :: rest2 => some (.arr [], rest2)
      | rest2 =>
        match parseElems fuel rest2 with
        | some (elems, rest3) => some (.arr elems, rest3)
        | none => none
    | '\x7b' :: rest =>
      match skipWs rest with
      | '\x7d' :: rest2 => some (.obj [], rest2)
      | rest2 =>
        match parseMembers fuel rest2 with
        | some (fields, rest3) => some (.obj fields, rest3)
        | none => none
    | rest =>
      (parseNumberToken rest).map (fun p => (.num (String.mk p.1), p.2))

/-- Parse the comma-separated elements of a non-empty array, including the
closing bracket. -/
def parseElems : Nat → List Char → Option (List Json × List Char)
  | 0, _ => none
  | Nat.succ fuel, cs =>
    match parseValue fuel cs with
    | some (v, rest) =>
      match skipWs rest with
      | ',' :: rest2 =>
        match parseElems fuel rest2 with
        | some (elems, rest3) => some (v :: elems, rest3)
        | none => none
      | ']' :: rest2 => some ([v], rest2)
      | _ => none
    | none => none

/-- Parse the comma-separated members of a non-empty object, including the
closing brace. -/
def parseMembers : Nat → List Char → Option (List (String × Json) × List Char)
  | 0, _ => none
  | Nat.succ fuel, cs =>
    match skipWs cs with
    | '"' :: rest =>
      match parseStringChars rest with
      | some (key, rest1) =>
        match skipWs rest1 with
        | ':' :: rest2 =>
          match parseValue fuel rest2 with
          | some (v, rest3) =>
            match skipWs rest3 with
            | ',' :: rest4 =>
              match parseMembers fuel rest4 with
              | some (fields, rest5) => some ((String.mk key, v) :: fields, rest5)
              | none => none
            | '\x7d' :: rest4 => some ([(String.mk key, v)], rest4)
            | _ => none
          | none => none
        | _ => none
      | none => none
    | _ => none

end

/-- `serde_json::from_str::<serde_json::Value>`: one JSON value, with only
whitespace after it.  The fuel bound exceeds any possible nesting depth. -/
def parseJson (s : String) : Option Json :=
  match parseValue (2 * s.length + 2) s.data with
  | some (v, rest) => if skipWs rest == [] then some v else none
  | none => none

/-! ## Cursor handling in `SuiBlockchain::get_events` (sui.rs:246-272) -/

/-- The 64-zero transaction hash used for the fallback cursor. -/
def zeros64 : String := String.mk (List.replicate 64 '0')

/-- The placeholder cursor `get_events` builds for a cursor string it cannot
interpret: `txDigest` is the 64-zero hash, `eventSeq` the original string. -/
def placeholderCursor (cursor_str : String) : Json :=
  Json.obj [("txDigest", Json.str zeros64), ("eventSeq", Json.str cursor_str)]

/-- Rust's `char::is_whitespace`, restricted to the ASCII range cursor
strings live in (space, tab, line feed, vertical tab, form feed, carriage
return). -/
def isRustWhitespace (c : Char) : Bool :=
  c == ' ' || c == '\t' || c == '\n' || c == '\r' || c.toNat == 11 || c.toNat == 12

/-- Rust's `cursor_str.trim().starts_with('\x7b')`: after trimming
whitespace, does the string start with an opening brace? -/
def trimmed_starts_with_brace (s : String) : Bool :=
  match s.data.dropWhile isRustWhitespace with
  | c :: _ => c == '\x7b'
  | [] => false

/-- The `cursor` parameter `get_events` sends (sui.rs:246-272): a stored
string that looks like JSON (trimmed, starts with a brace) is parsed as a
generic `serde_json::Value` and sent as-is; on a parse failure, or for any
other string, the placeholder cursor is sent instead. -/
def cursor_param (start_cursor : Option String) : Option Json :=
  match start_cursor with
  | some cursor_str =>
    if trimmed_starts_with_brace cursor_str then
      match parseJson cursor_str with
      | some json_val => some json_val
      | none => some (placeholderCursor cursor_str)
    else some (placeholderCursor cursor_str)
  | none => none

/-- Spec-side predicate: the string is valid JSON *for an event cursor*,
i.e. it deserializes to an object carrying string fields `txDigest` and
`eventSeq` (the shape of the `EventID` the sync loop stores). -/
def isEventCursorJson (s : String) : Bool :=
  match parseJson s with
  | some (Json.obj fields) =>
    (fields.any (fun f => f.1 == "txDigest" &&
      match f.2 with | Json.str _ => true | _ => false)) &&
    (fields.any (fun f => f.1 == "eventSeq" &&
      match f.2 with | Json.str _ => true | _ => false))
  | _ => false

/-! ## The two sync loops

`MonadBlockchain::sync_events` (monad.rs:162-233) and
`SuiBlockchain::sync_events` (sui.rs:385-447) are unending effectful loops.
One loop iteration is embedded as a pure function from the in-memory
checkpoint and the iteration's external inputs (RPC results, store-write
outcome) to the new checkpoint plus the ordered trace of observable actions
the iteration performed.  A run folds iterations over a list of inputs. -/

/-- An observable action of a sync-loop iteration, in the order the loop
performs them. -/
inductive SyncAction where
  /-- Fetch events for the inclusive block window `[from_block, to_block]`
  (or, for the cursor chain, one page; the window fields are then unused). -/
  | fetchWindow (from_block to_block : Nat)
  /-- Apply one event through `process_trade_event`. -/
  | applyEvent (event : Trade)
  /-- Persist the checkpoint position (`sync_status.last_synced_block`). -/
  | writeCheckpoint (position : Nat)
  /-- Sleep for the given number of seconds. -/
  | sleepSecs (seconds : Nat)
deriving Repr, DecidableEq

/-- The positions written by `writeCheckpoint` actions, in order. -/
def writtenPositions (actions : List SyncAction) : List Nat :=
  actions.filterMap (fun a =>
    match a with
    | SyncAction.writeCheckpoint p => some p
    | _ => none)

/-- External inputs consumed by one iteration of the Monad sync loop:
the head-block query result (`none` = RPC error), the event fetch result
(`none` = query error), and whether the checkpoint write succeeded. -/
structure MonadIterInput where
  head : Option Nat
  fetch : Option (List Trade)
  write_ok : Bool
deriving Repr

/-- One iteration of the `loop` in `MonadBlockchain::sync_events`
(monad.rs:177-232), from checkpoint `last_synced_block`:
head-query failure sleeps 10s; a checkpoint at/beyond the head sleeps 60s;
otherwise the window up to `min(last_synced_block + 100, head)` is fetched,
every fetched event is applied, and only then is the checkpoint written
(`BLOCK_BATCH_SIZE = 100`); a fetch failure sleeps 10s and leaves the
checkpoint alone; a failed write is logged and also leaves it alone. -/
def monad_sync_iter (last_synced_block : Nat) (inp : MonadIterInput) :
    Nat × List SyncAction :=
  match inp.head with
  | none => (last_synced_block, [SyncAction.sleepSecs 10])
  | some current_block =>
    if current_block ≤ last_synced_block then
      (last_synced_block, [SyncAction.sleepSecs 60])
    else
      let end_block := min (last_synced_block + 100) current_block
      match inp.fetch with
      | some events =>
        (if inp.write_ok then end_block else last_synced_block,
         SyncAction.fetchWindow last_synced_block end_block ::
           events.map SyncAction.applyEvent ++
           (if inp.write_ok then [SyncAction.writeCheckpoint end_block] else []) ++
           [SyncAction.sleepSecs 1])
      | none =>
        (last_synced_block,
         [SyncAction.fetchWindow last_synced_block end_block,
          SyncAction.sleepSecs 10, SyncAction.sleepSecs 1])

/-- A run of the Monad sync loop over a list of iteration inputs: the final
checkpoint and the concatenated action trace. -/
def monad_sync_run (last_synced_block : Nat) :
    List MonadIterInput → Nat × List SyncAction
  | [] => (last_synced_block, [])
  | inp :: rest =>
    let step := monad_sync_iter last_synced_block inp
    let tail := monad_sync_run step.1 rest
    (tail.1, step.2 ++ tail.2)

/-- A Sui event cursor (sui.rs:58-66). -/
structure EventID where
  tx_digest : String
  event_seq : String
deriving Repr, DecidableEq

/-- `serde_json::to_string` of an `EventID`, with its serde field renames.
(String escaping is omitted: digests and sequence numbers are plain
alphanumeric text.) -/
def serializeEventID (e : EventID) : String :=
  "\x7b\"txDigest\":\"" ++ e.tx_digest ++ "\",\"eventSeq\":\"" ++ e.event_seq ++ "\"\x7d"

/-- `u64::from_str_radix(s, 16)` as used on a digest prefix: an optional
leading `+`, then one or more hexadecimal digits (at most 16 reach this
call, so overflow cannot occur). -/
def from_str_radix16? (cs : List Char) : Option Nat :=
  let body := match cs with
    | '+' :: rest => rest
    | _ => cs
  match body with
  | [] => none
  | _ => body.foldl (fun acc c =>
      match acc, hexDigitVal? c with
      | some n, some d => some (n * 16 + d)
      | _, _ => none) (some 0)

/-- The numeric surrogate stored for a Sui cursor (sui.rs:424):
`u64::from_str_radix(&tx_digest[0..16], 16).unwrap_or(0)`.  Slicing a digest
shorter than 16 bytes panics (`Except.error ()`); a prefix that is not
hexadecimal falls back to `0`. -/
def digest_surrogate (tx_digest : String) : Except Unit Nat :=
  if tx_digest.length < 16 then .error ()
  else .ok ((from_str_radix16? (tx_digest.data.take 16)).getD 0)

/-- One page of `suix_queryEvents` results, already decoded: the trade
payloads of the events, the next cursor, and the has-next-page flag. -/
structure SuiEventPage where
  data : List Trade
  nextCursor : Option EventID
  hasNextPage : Bool
deriving Repr, DecidableEq

/-- External inputs consumed by one iteration of the Sui sync loop. -/
structure SuiIterInput where
  fetch : Option SuiEventPage
  write_ok : Bool
deriving Repr

/-- One iteration of the `loop` in `SuiBlockchain::sync_events`
(sui.rs:403-446), from in-memory cursor `cursor_str`: a fetch failure sleeps
10s and changes nothing; on success every event of the page is applied, then
`nextCursor` (when present) is serialized into the new in-memory cursor and
the checkpoint row is written with the digest surrogate as its position — a
failed write is only logged, the in-memory cursor still advances; with no
next cursor and no next page the loop sleeps 60s.  Every iteration ends with
the 1s pacing sleep. -/
def sui_sync_iter (cursor_str : Option String) (inp : SuiIterInput) :
    Except Unit (Option String × List SyncAction) :=
  match inp.fetch with
  | none => .ok (cursor_str, [SyncAction.sleepSecs 10, SyncAction.sleepSecs 1])
  | some page =>
    let applies := page.data.map SyncAction.applyEvent
    match page.nextCursor with
    | some next_cursor =>
      match digest_surrogate next_cursor.tx_digest with
      | .error e => .error e
      | .ok position =>
        .ok (some (serializeEventID next_cursor),
          applies ++
            (if inp.write_ok then [SyncAction.writeCheckpoint position] else []) ++
            [SyncAction.sleepSecs 1])
    | none =>
      if page.hasNextPage then
        .ok (cursor_str, applies ++ [SyncAction.sleepSecs 1])
      else
        .ok (cursor_str, applies ++ [SyncAction.sleepSecs 60, SyncAction.sleepSecs 1])

/-- A run of the Sui sync loop over a list of iteration inputs. -/
def sui_sync_run (cursor_str : Option String) :
    List SuiIterInput → Except Unit (Option String × List SyncAction)
  | [] => .ok (cursor_str, [])
  | inp :: rest =>
    match sui_sync_iter cursor_str inp with
    | .error e => .error e
    | .ok (c1, actions) =>
      match sui_sync_run c1 rest with
      | .error e => .error e
      | .ok (c2, actions2) => .ok (c2, actions ++ actions2)

/-! # Helper lemmas -/

/-- `find?` over a map that rewrites exactly the matching elements, by a
function that keeps them matching, finds the rewritten first match. -/
theorem find?_map_ite {α : Type} (p : α → Bool) (g : α → α)
    (hpres : ∀ a, p a = true → p (g a) = true) (l : List α) :
    (l.map (fun a => if p a then g a else a)).find? p = (l.find? p).map g := by
  induction l with
  | nil => rfl
  | cons x xs ih =>
    simp only [List.map_cons]
    by_cases hx : p x = true
    · rw [if_pos hx, List.find?_cons_of_pos _ (hpres x hx), List.find?_cons_of_pos _ hx]
      rfl
    · rw [if_neg hx, List.find?_cons_of_neg _ (by simpa using hx),
        List.find?_cons_of_neg _ (by simpa using hx), ih]

/-- A row with only its `share_amount` replaced still matches the same key. -/
theorem tradeKeyMatches_set_amount (t s c : String) (r : TradeRow) (v : Int) :
    tradeKeyMatches t s c { r with share_amount := v } = tradeKeyMatches t s c r := rfl

/-- What `findTrade` returns after a buy: the old row with the amount added,
or the freshly inserted row. -/
theorem findTrade_process_buy (db : Db) (t s c : String) (a : Int) :
    findTrade (process_buy_trade db t s a c) t s c =
      match findTrade db t s c with
      | some row => some { row with share_amount := row.share_amount + a }
      | none => some ⟨t, s, c, a⟩ := by
  unfold process_buy_trade
  cases h : findTrade db t s c with
  | some row =>
    have h' : db.trades.find? (tradeKeyMatches t s c) = some row := h
    rw [if_pos (show (some row).isSome = true from rfl)]
    show (db.trades.map _).find? _ = _
    rw [find?_map_ite (tradeKeyMatches t s c)
      (fun r => { r with share_amount := r.share_amount + a }) (fun r hr => hr), h']
    rfl
  | none =>
    have h' : db.trades.find? (tradeKeyMatches t s c) = none := h
    rw [if_neg (by simp)]
    show (db.trades ++
      [({ trader := t, subject := s, chain_type := c, share_amount := a } : TradeRow)]).find? _ = _
    rw [List.find?_append, h']
    simp [tradeKeyMatches]

/-- A buy leaves the `user_mappings` and `telegram_bots` tables alone. -/
theorem process_buy_trade_other_tables (db : Db) (t s : String) (a : Int) (c : String) :
    (process_buy_trade db t s a c).user_mappings = db.user_mappings ∧
    (process_buy_trade db t s a c).telegram_bots = db.telegram_bots := by
  unfold process_buy_trade
  split <;> exact ⟨rfl, rfl⟩

/-- The database a sell returns when the key exists: the matching row's
balance decremented, whatever the ban check said. -/
theorem process_sell_trade_fst (db : Db) (t s : String) (a : Int) (c : String)
    (row : TradeRow) (h : findTrade db t s c = some row) :
    (process_sell_trade db t s a c).1 =
      { db with trades := db.trades.map (fun r =>
          if tradeKeyMatches t s c r then
            { r with share_amount := r.share_amount - a }
          else r) } := by
  unfold process_sell_trade
  rw [h]
  dsimp only
  split
  · split <;> rfl
  · rfl

/-- What `findTrade` returns after a sell on an existing entry. -/
theorem findTrade_process_sell (db : Db) (t s : String) (a : Int) (c : String)
    (row : TradeRow) (h : findTrade db t s c = some row) :
    findTrade (process_sell_trade db t s a c).1 t s c =
      some { row with share_amount := row.share_amount - a } := by
  have h' : db.trades.find? (tradeKeyMatches t s c) = some row := h
  rw [process_sell_trade_fst db t s a c row h]
  show (db.trades.map _).find? _ = _
  rw [find?_map_ite (tradeKeyMatches t s c)
    (fun r => { r with share_amount := r.share_amount - a }) (fun r hr => hr), h']
  rfl

/-- Once the ledger entry for the key exists, applying any sequence of buys
and sells ends at the starting balance plus buys minus sells. -/
theorem apply_trades_shares (t s c : String) :
    ∀ (events : List (Bool × Nat)) (db : Db) (row : TradeRow),
      findTrade db t s c = some row →
      get_user_subject_shares (apply_trades db t s c events) t s c
        = row.share_amount + (sumBuys events - sumSells events) := by
  intro events
  induction events with
  | nil =>
    intro db row h
    simp [apply_trades, get_user_subject_shares, h, sumBuys, sumSells]
  | cons e rest ih =>
    intro db row h
    obtain ⟨b, amt⟩ := e
    cases b with
    | true =>
      have hstep : findTrade (process_buy_trade db t s (Int.ofNat amt) c) t s c
          = some { row with share_amount := row.share_amount + Int.ofNat amt } := by
        rw [findTrade_process_buy, h]
      have hrec := ih _ _ hstep
      show get_user_subject_shares
        (apply_trades (process_buy_trade db t s (Int.ofNat amt) c) t s c rest) t s c = _
      rw [hrec]
      simp only [sumBuys, sumSells, if_pos rfl]
      ring_nf
      simp [add_comm, add_assoc, add_left_comm]
    | false =>
      have hstep : findTrade (process_sell_trade db t s (Int.ofNat amt) c).1 t s c
          = some { row with share_amount := row.share_amount - Int.ofNat amt } :=
        findTrade_process_sell db t s (Int.ofNat amt) c row h
      have hrec := ih _ _ hstep
      show get_user_subject_shares
        (apply_trades (process_sell_trade db t s (Int.ofNat amt) c).1 t s c rest) t s c = _
      rw [hrec]
      simp only [sumBuys, sumSells]
      ring_nf
      simp [add_comm, add_assoc, add_left_comm, sub_eq_add_neg]

/-! # Claim C1 -/

/-- C1 counterexample: the claim fails on a sequence that sells before any
buy.  On a fresh key, `sell 5` finds no `trades` row and is a logged no-op,
so `[sell 5, buy 10]` ends with a stored balance of `10`, not
`sum(buys) - sum(sells) = 5`. -/
theorem C1_counterexample :
    get_user_subject_shares
      (apply_trades ⟨[], [], []⟩ "t" "s" "monad" [(false, 5), (true, 10)])
      "t" "s" "monad" = 10 ∧
    sumBuys [(false, 5), (true, 10)] - sumSells [(false, 5), (true, 10)] = 5 ∧
    (10 : Int) ≠ 5 := by
  refine ⟨by decide, by decide, by decide⟩

/-- C1 (amended): for every sequence of buy and sell events applied in chain
order to a fresh (trader, subject, chain) key via `process_buy_trade` and
`process_sell_trade` *in which no sell precedes the first buy*, the final
stored `share_amount` equals the sum of all buy amounts minus the sum of all
sell amounts.  (Sells on a missing key are silent no-ops, so leading sells
are dropped rather than subtracted.) -/
theorem C1_ledger_sum (db : Db) (trader subject chain_type : String)
    (events : List (Bool × Nat))
    (hfresh : findTrade db trader subject chain_type = none)
    (hlead : events.takeWhile (fun e => !e.1) = []) :
    get_user_subject_shares (apply_trades db trader subject chain_type events)
      trader subject chain_type = sumBuys events - sumSells events := by
  cases events with
  | nil => simp [apply_trades, get_user_subject_shares, hfresh, sumBuys, sumSells]
  | cons e rest =>
    obtain ⟨b, amt⟩ := e
    cases b with
    | false => simp [List.takeWhile_cons] at hlead
    | true =>
      have hstep : findTrade (process_buy_trade db trader subject (Int.ofNat amt) chain_type)
          trader subject chain_type
          = some ⟨trader, subject, chain_type, Int.ofNat amt⟩ := by
        rw [findTrade_process_buy, hfresh]
      have hrec := apply_trades_shares trader subject chain_type rest _ _ hstep
      have hcons : apply_trades db trader subject chain_type ((true, amt) :: rest)
          = apply_trades (process_buy_trade db trader subject (Int.ofNat amt) chain_type)
              trader subject chain_type rest := rfl
      rw [hcons, hrec]
      simp [sumBuys, sumSells]
      ring

/-- C1 witness: the spec's own end-to-end scenario — buy 100, buy 50,
sell 150 on a fresh key — ends at `sum(buys) - sum(sells)`. -/
theorem C1_ledger_sum_witness :
    get_user_subject_shares
      (apply_trades ⟨[], [], []⟩ "0xaa" "0xbb" "chainA" [(true, 100), (true, 50), (false, 150)])
      "0xaa" "0xbb" "chainA"
      = sumBuys [(true, 100), (true, 50), (false, 150)]
        - sumSells [(true, 100), (true, 50), (false, 150)] :=
  C1_ledger_sum ⟨[], [], []⟩ "0xaa" "0xbb" "chainA"
    [(true, 100), (true, 50), (false, 150)] rfl rfl

/-! # Claim C9 -/

/-- C9: a sell on an existing (trader, subject, chain) ledger entry whose
amount strictly exceeds the current balance stores a strictly negative
`share_amount` — the subtraction is unconditional, with no clamping at
zero — and emits no gate decision, because the ban check fires only when
the post-sell balance is exactly zero. -/
theorem C9_oversell_negative (db : Db) (trader subject chain_type : String)
    (amount : Nat) (row : TradeRow)
    (hrow : findTrade db trader subject chain_type = some row)
    (hover : row.share_amount < Int.ofNat amount) :
    get_user_subject_shares (process_sell_trade db trader subject (Int.ofNat amount) chain_type).1
        trader subject chain_type = row.share_amount - Int.ofNat amount ∧
    row.share_amount - Int.ofNat amount < 0 ∧
    (process_sell_trade db trader subject (Int.ofNat amount) chain_type).2 = (false, none) ∧
    process_trade_event chain_type ⟨trader, subject, false, amount⟩ db =
      .ok ((process_sell_trade db trader subject (Int.ofNat amount) chain_type).1, []) := by
  have hneg : row.share_amount - Int.ofNat amount < 0 := by omega
  have hget : get_user_subject_shares
      (process_sell_trade db trader subject (Int.ofNat amount) chain_type).1
      trader subject chain_type = row.share_amount - Int.ofNat amount := by
    unfold get_user_subject_shares
    rw [findTrade_process_sell db trader subject (Int.ofNat amount) chain_type row hrow]
  have hsnd : (process_sell_trade db trader subject (Int.ofNat amount) chain_type).2
      = (false, none) := by
    unfold process_sell_trade
    rw [hrow]
    dsimp only
    rw [if_neg (by omega)]
  have hevent : process_trade_event chain_type ⟨trader, subject, false, amount⟩ db =
      .ok ((process_sell_trade db trader subject (Int.ofNat amount) chain_type).1, []) := by
    have hsnd2 := hsnd
    rcases hps : process_sell_trade db trader subject (Int.ofNat amount) chain_type
      with ⟨db1, sb, tid⟩
    rw [hps] at hsnd2
    simp only [Prod.mk.injEq] at hsnd2
    obtain ⟨hsb, htid⟩ := hsnd2
    subst hsb htid
    unfold process_trade_event
    rw [hps]
    simp
  exact ⟨hget, hneg, hsnd, hevent⟩

/-- C9 witness: selling 5 against a stored balance of 3 stores `-2`, returns
no ban signal, and the event processing emits no decision. -/
theorem C9_oversell_negative_witness :
    get_user_subject_shares
      (process_sell_trade ⟨[⟨"t", "s", "monad", 3⟩], [], []⟩ "t" "s" (Int.ofNat 5) "monad").1
      "t" "s" "monad" = (3 : Int) - Int.ofNat 5 ∧
    (3 : Int) - Int.ofNat 5 < 0 ∧
    (process_sell_trade ⟨[⟨"t", "s", "monad", 3⟩], [], []⟩ "t" "s" (Int.ofNat 5) "monad").2
      = (false, none) ∧
    process_trade_event "monad" ⟨"t", "s", false, 5⟩ ⟨[⟨"t", "s", "monad", 3⟩], [], []⟩ =
      .ok ((process_sell_trade ⟨[⟨"t", "s", "monad", 3⟩], [], []⟩ "t" "s"
        (Int.ofNat 5) "monad").1, []) :=
  C9_oversell_negative ⟨[⟨"t", "s", "monad", 3⟩], [], []⟩ "t" "s" "monad" 5
    ⟨"t", "s", "monad", 3⟩ (by decide) (by decide)

/-! # Claims C2 and C3 -/

/-- A sell keeps the `user_mappings` and `telegram_bots` tables unchanged. -/
theorem process_sell_trade_other_tables (db : Db) (t s : String) (a : Int) (c : String) :
    (process_sell_trade db t s a c).1.user_mappings = db.user_mappings ∧
    (process_sell_trade db t s a c).1.telegram_bots = db.telegram_bots := by
  unfold process_sell_trade
  cases h : findTrade db t s c with
  | some row =>
    dsimp only
    split
    · split <;> exact ⟨rfl, rfl⟩
    · exact ⟨rfl, rfl⟩
  | none => exact ⟨rfl, rfl⟩

/-- A sell that empties an existing entry, with an identity mapping present,
returns the ban signal and the mapped Telegram id. -/
theorem process_sell_trade_gate (db : Db) (t s : String) (a : Int) (c : String)
    (row : TradeRow) (u : UserMappingRow)
    (hrow : findTrade db t s c = some row) (hzero : row.share_amount - a = 0)
    (hmap : findUserMapping db t c = some u) :
    process_sell_trade db t s a c =
      ({ db with trades := db.trades.map (fun r =>
          if tradeKeyMatches t s c r then
            { r with share_amount := r.share_amount - a }
          else r) },
       true, some u.telegram_id) := by
  unfold process_sell_trade
  rw [hrow]
  dsimp only
  rw [if_pos hzero, hmap]

/-- A sell that empties an existing entry, with no identity mapping,
returns no ban signal. -/
theorem process_sell_trade_no_mapping (db : Db) (t s : String) (a : Int) (c : String)
    (row : TradeRow)
    (hrow : findTrade db t s c = some row) (hzero : row.share_amount - a = 0)
    (hmap : findUserMapping db t c = none) :
    process_sell_trade db t s a c =
      ({ db with trades := db.trades.map (fun r =>
          if tradeKeyMatches t s c r then
            { r with share_amount := r.share_amount - a }
          else r) },
       false, none) := by
  unfold process_sell_trade
  rw [hrow]
  dsimp only
  rw [if_pos hzero, hmap]

/-- A sell with no matching ledger entry changes nothing and returns no ban
signal. -/
theorem process_sell_trade_not_found (db : Db) (t s : String) (a : Int) (c : String)
    (hrow : findTrade db t s c = none) :
    process_sell_trade db t s a c = (db, false, none) := by
  unfold process_sell_trade
  rw [hrow]

/-- The sell branch of `process_trade_event` when the sell reported the ban
signal, a bot is registered for the subject, and the Telegram id parses:
one revoke decision is emitted and the trader's `is_banned` flags are set. -/
theorem process_trade_event_sell_banned (chain_type trader subject : String) (amount : Nat)
    (db db1 : Db) (tid : String) (bot : TelegramBotRow) (uid : Nat)
    (hps : process_sell_trade db trader subject (Int.ofNat amount) chain_type = (db1, true, some tid))
    (hbot : findTelegramBot db1 subject chain_type = some bot)
    (hparse : parse_u64 tid = some uid) :
    process_trade_event chain_type ⟨trader, subject, false, amount⟩ db =
      .ok ({ db1 with user_mappings := db1.user_mappings.map (fun r =>
              if r.address == trader && r.chain_type == chain_type then
                { r with is_banned := true }
              else r) },
           [⟨bot.chat_group_id, uid, true⟩]) := by
  unfold process_trade_event
  rw [hps]
  simp [hbot, hparse]

/-- The sell branch of `process_trade_event` when the sell reported the ban
signal and the Telegram id parses, but no bot is registered for the subject:
the code only logs — no decision, no flag update. -/
theorem process_trade_event_sell_no_bot (chain_type trader subject : String) (amount : Nat)
    (db db1 : Db) (tid : String)
    (hps : process_sell_trade db trader subject (Int.ofNat amount) chain_type = (db1, true, some tid))
    (hbot : findTelegramBot db1 subject chain_type = none) :
    process_trade_event chain_type ⟨trader, subject, false, amount⟩ db = .ok (db1, []) := by
  unfold process_trade_event
  rw [hps]
  simp [hbot]

/-- The sell branch of `process_trade_event` when the sell reported no ban
signal: no decision is emitted. -/
theorem process_trade_event_sell_no_ban (chain_type trader subject : String) (amount : Nat)
    (db db1 : Db)
    (hps : process_sell_trade db trader subject (Int.ofNat amount) chain_type = (db1, false, none)) :
    process_trade_event chain_type ⟨trader, subject, false, amount⟩ db = .ok (db1, []) := by
  unfold process_trade_event
  rw [hps]
  simp

/-- Rewriting exactly the rows matching an identity key, setting their
`is_banned` flag, rewrites what `find?` for that key returns. -/
theorem findUserMapping_ban_update (l : List UserMappingRow) (trader chain_type : String) :
    (l.map (fun r => if r.address == trader && r.chain_type == chain_type then
        { r with is_banned := true } else r)).find?
      (fun r => r.address == trader && r.chain_type == chain_type)
      = (l.find? (fun r => r.address == trader && r.chain_type == chain_type)).map
          (fun r => { r with is_banned := true }) :=
  find?_map_ite (fun r => r.address == trader && r.chain_type == chain_type)
    (fun r => { r with is_banned := true }) (fun _ hr => hr) l

/-- C2 counterexample: the claim fails when no Telegram bot is registered
for the subject.  The trader's identity mapping exists and the sell brings
the balance to exactly zero, yet no gate decision is emitted and
`is_banned` stays `false`: the ban branch requires a `telegram_bots` row for
the subject before it restricts the member or sets the flag. -/
theorem C2_counterexample :
    findUserMapping ⟨[⟨"t", "s", "monad", 5⟩], [⟨"t", "monad", "42", false⟩], []⟩ "t" "monad"
      = some ⟨"t", "monad", "42", false⟩ ∧
    process_trade_event "monad" ⟨"t", "s", false, 5⟩
        ⟨[⟨"t", "s", "monad", 5⟩], [⟨"t", "monad", "42", false⟩], []⟩
      = .ok (⟨[⟨"t", "s", "monad", 0⟩], [⟨"t", "monad", "42", false⟩], []⟩, []) :=
  ⟨rfl, rfl⟩

/-- C2 (amended): for every sell on an existing (trader, subject, chain)
entry that brings the balance to exactly zero: when an IdentityMapping
exists for the trader whose Telegram id parses as a `u64` *and a Telegram
bot is registered for the subject*, exactly one gate decision is emitted and
`is_banned` is set to `true`; when no IdentityMapping exists, no decision is
emitted; and a sell for which no ledger entry exists emits no decision and
leaves the database unchanged.  (Without a registered bot the code only logs
and neither emits a decision nor sets the flag — see the counterexample.) -/
theorem C2_sell_to_zero_gates (db : Db) (chain_type trader subject : String) (amount : Nat) :
    (∀ row u bot uid,
      findTrade db trader subject chain_type = some row →
      row.share_amount - Int.ofNat amount = 0 →
      findUserMapping db trader chain_type = some u →
      findTelegramBot db subject chain_type = some bot →
      parse_u64 u.telegram_id = some uid →
      process_trade_event chain_type ⟨trader, subject, false, amount⟩ db
          = .ok ({ db with
              trades := db.trades.map (fun r =>
                if tradeKeyMatches trader subject chain_type r then
                  { r with share_amount := r.share_amount - Int.ofNat amount }
                else r),
              user_mappings := db.user_mappings.map (fun r =>
                if r.address == trader && r.chain_type == chain_type then
                  { r with is_banned := true }
                else r) },
            [⟨bot.chat_group_id, uid, true⟩]) ∧
        (findUserMapping { db with
              trades := db.trades.map (fun r =>
                if tradeKeyMatches trader subject chain_type r then
                  { r with share_amount := r.share_amount - Int.ofNat amount }
                else r),
              user_mappings := db.user_mappings.map (fun r =>
                if r.address == trader && r.chain_type == chain_type then
                  { r with is_banned := true }
                else r) } trader chain_type).map (fun r => r.is_banned) = some true) ∧
    (∀ row,
      findTrade db trader subject chain_type = some row →
      row.share_amount - Int.ofNat amount = 0 →
      findUserMapping db trader chain_type = none →
      process_trade_event chain_type ⟨trader, subject, false, amount⟩ db
        = .ok ((process_sell_trade db trader subject (Int.ofNat amount) chain_type).1, [])) ∧
    (findTrade db trader subject chain_type = none →
      process_trade_event chain_type ⟨trader, subject, false, amount⟩ db = .ok (db, [])) := by
  refine ⟨?_, ?_, ?_⟩
  · intro row u bot uid hrow hzero hmap hbot hparse
    have hps := process_sell_trade_gate db trader subject (Int.ofNat amount) chain_type
      row u hrow hzero hmap
    have hbot1 : findTelegramBot { db with trades := db.trades.map (fun r =>
        if tradeKeyMatches trader subject chain_type r then
          { r with share_amount := r.share_amount - Int.ofNat amount }
        else r) } subject chain_type = some bot := hbot
    have hfum : findUserMapping { db with
        trades := db.trades.map (fun r =>
          if tradeKeyMatches trader subject chain_type r then
            { r with share_amount := r.share_amount - Int.ofNat amount }
          else r),
        user_mappings := db.user_mappings.map (fun r =>
          if r.address == trader && r.chain_type == chain_type then
            { r with is_banned := true }
          else r) } trader chain_type
        = some { u with is_banned := true } := by
      have h1 := findUserMapping_ban_update db.user_mappings trader chain_type
      have hmap' : db.user_mappings.find?
          (fun r => r.address == trader && r.chain_type == chain_type) = some u := hmap
      rw [hmap'] at h1
      exact h1
    refine ⟨?_, by rw [hfum]; rfl⟩
    exact process_trade_event_sell_banned chain_type trader subject amount db _
      u.telegram_id bot uid hps hbot1 hparse
  · intro row hrow hzero hmap
    have hps := process_sell_trade_no_mapping db trader subject (Int.ofNat amount) chain_type
      row hrow hzero hmap
    rw [hps]
    exact process_trade_event_sell_no_ban chain_type trader subject amount db _ hps
  · intro hrow
    have hps := process_sell_trade_not_found db trader subject (Int.ofNat amount) chain_type hrow
    exact process_trade_event_sell_no_ban chain_type trader subject amount db db hps

/-- C2 witness: with a bot registered for the subject, selling the last 5
shares emits exactly one revoke decision and sets `is_banned`. -/
theorem C2_sell_to_zero_gates_witness :
    process_trade_event "monad" ⟨"t", "s", false, 5⟩
        ⟨[⟨"t", "s", "monad", 5⟩], [⟨"t", "monad", "42", false⟩], [⟨"s", "monad", "tok", "g"⟩]⟩
      = .ok (⟨[⟨"t", "s", "monad", 0⟩], [⟨"t", "monad", "42", true⟩],
          [⟨"s", "monad", "tok", "g"⟩]⟩,
        [⟨"g", 42, true⟩]) ∧
    (findUserMapping ⟨[⟨"t", "s", "monad", 0⟩], [⟨"t", "monad", "42", true⟩],
        [⟨"s", "monad", "tok", "g"⟩]⟩ "t" "monad").map (fun r => r.is_banned)
      = some true := by
  have h := (C2_sell_to_zero_gates
      ⟨[⟨"t", "s", "monad", 5⟩], [⟨"t", "monad", "42", false⟩], [⟨"s", "monad", "tok", "g"⟩]⟩
      "monad" "t" "s" 5).1
    ⟨"t", "s", "monad", 5⟩ ⟨"t", "monad", "42", false⟩ ⟨"s", "monad", "tok", "g"⟩ 42
    rfl (by decide) rfl rfl (by decide)
  exact h

/-- C3 counterexample: the claim fails when no Telegram bot is registered
for the subject.  The trader's identity mapping exists with
`is_banned = true` and the post-buy balance is `3 > 0`, yet the buy emits no
ungate decision: the unban branch requires a `telegram_bots` row for the
subject before it restores permissions. -/
theorem C3_counterexample :
    findUserMapping ⟨[], [⟨"t", "monad", "42", true⟩], []⟩ "t" "monad"
      = some ⟨"t", "monad", "42", true⟩ ∧
    process_trade_event "monad" ⟨"t", "s", true, 3⟩ ⟨[], [⟨"t", "monad", "42", true⟩], []⟩
      = .ok (⟨[⟨"t", "s", "monad", 3⟩], [⟨"t", "monad", "42", true⟩], []⟩, []) :=
  ⟨rfl, rfl⟩

/-- C3 (amended): for every buy event applied while an IdentityMapping
exists for the trader with `is_banned = true` whose Telegram id parses as a
`u64`, the post-buy balance for (trader, subject, chain) is positive, *and a
Telegram bot is registered for the subject*, exactly one ungate decision is
emitted for that buy event (the flag is never consulted for "only the
first": every such buy re-emits), and the `user_mappings` table — in
particular `is_banned` — is left unchanged by the buy.  (Without a
registered bot no decision is emitted — see the counterexample.) -/
theorem C3_buy_while_banned_ungates (db : Db) (chain_type trader subject : String)
    (amount : Nat) (u : UserMappingRow) (bot : TelegramBotRow) (uid : Nat)
    (hmap : findUserMapping db trader chain_type = some u)
    (hban : u.is_banned = true)
    (hbot : findTelegramBot db subject chain_type = some bot)
    (hparse : parse_u64 u.telegram_id = some uid)
    (hpos : 0 < get_user_subject_shares
      (process_buy_trade db trader subject (Int.ofNat amount) chain_type)
      trader subject chain_type) :
    process_trade_event chain_type ⟨trader, subject, true, amount⟩ db
      = .ok (process_buy_trade db trader subject (Int.ofNat amount) chain_type,
             [⟨bot.chat_group_id, uid, false⟩]) ∧
    (process_buy_trade db trader subject (Int.ofNat amount) chain_type).user_mappings
      = db.user_mappings := by
  have hother := process_buy_trade_other_tables db trader subject (Int.ofNat amount) chain_type
  refine ⟨?_, hother.1⟩
  have hmap1 : findUserMapping (process_buy_trade db trader subject (Int.ofNat amount) chain_type)
      trader chain_type = some u := by
    unfold findUserMapping
    rw [hother.1]
    exact hmap
  have hbot1 : findTelegramBot (process_buy_trade db trader subject (Int.ofNat amount) chain_type)
      subject chain_type = some bot := by
    unfold findTelegramBot
    rw [hother.2]
    exact hbot
  cases hft : findTrade (process_buy_trade db trader subject (Int.ofNat amount) chain_type)
      trader subject chain_type with
  | none =>
    exfalso
    unfold get_user_subject_shares at hpos
    rw [hft] at hpos
    exact lt_irrefl 0 hpos
  | some share =>
    have hshare : share.share_amount > 0 := by
      unfold get_user_subject_shares at hpos
      rw [hft] at hpos
      exact hpos
    unfold process_trade_event
    dsimp only
    rw [if_pos rfl, hmap1]
    dsimp only
    rw [hban, if_pos rfl, hft]
    dsimp only
    rw [if_pos hshare, hbot1]
    dsimp only
    rw [hparse]

/-- C3 witness: a banned trader with a registered bot buys 3 shares on a
fresh key; exactly one ungate decision is emitted and the mapping row is
untouched. -/
theorem C3_buy_while_banned_ungates_witness :
    process_trade_event "monad" ⟨"t", "s", true, 3⟩
        ⟨[], [⟨"t", "monad", "42", true⟩], [⟨"s", "monad", "tok", "g"⟩]⟩
      = .ok (process_buy_trade ⟨[], [⟨"t", "monad", "42", true⟩], [⟨"s", "monad", "tok", "g"⟩]⟩
               "t" "s" (Int.ofNat 3) "monad",
             [⟨"g", 42, false⟩]) ∧
    (process_buy_trade ⟨[], [⟨"t", "monad", "42", true⟩], [⟨"s", "monad", "tok", "g"⟩]⟩
        "t" "s" (Int.ofNat 3) "monad").user_mappings
      = [⟨"t", "monad", "42", true⟩] :=
  C3_buy_while_banned_ungates ⟨[], [⟨"t", "monad", "42", true⟩], [⟨"s", "monad", "tok", "g"⟩]⟩
    "monad" "t" "s" 3 ⟨"t", "monad", "42", true⟩ ⟨"s", "monad", "tok", "g"⟩ 42
    rfl rfl rfl (by decide) (by decide)

/-! # Claims C4 and C10 -/

/-- C4 counterexample: a request whose signature fails to verify gets an
HTTP 200 response with `success: true` and no error string — not the
`success: false` plus reason the claim states.  (No state is committed,
which is the part of the claim that does hold.) -/
theorem C4_counterexample :
    handle_verify ⟨[], [], [⟨"s", "monad", "tok", "g"⟩]⟩
        (fun _ _ => .error "Invalid signature hex: bad")
        (fun _ _ => .ok 5) true
        ⟨"123", "g", "deadbeef", "0xabc", none⟩
      = .ok (⟨[], [], [⟨"s", "monad", "tok", "g"⟩]⟩, ⟨.ok, ⟨true, none⟩, none, none⟩) ∧
    ¬ ((⟨true, none⟩ : ChallengeResponse).success = false) :=
  ⟨rfl, by decide⟩

/-- C4 (amended): for every request to the synchronous verification
endpoint (one whose chat has a registered bot and whose chain type is
supported) whose signature fails to verify or whose recovered address
differs from the claimed user, the handler falls through to the generic
HTTP 200 response `success: true` with *no* error string — the denial is
silent — and no state (user-mapping write, permission change) is committed
for that request. -/
theorem C4_verify_failure_silent (db : Db)
    (verify : String → String → Except String String)
    (balance_of : String → String → Except String Nat) (restrict_ok : Bool)
    (req : ChallengeRequest) (bot : TelegramBotRow)
    (hchain : req.chain_type.getD "monad" = "monad" ∨ req.chain_type.getD "monad" = "sui")
    (hbot : findTelegramBotByChat db req.chat_id (req.chain_type.getD "monad") = some bot)
    (hfail :
      (∃ e, verify (if req.chain_type.getD "monad" == "sui" then req.user else req.challenge)
          req.signature = .error e) ∨
      (∃ a, verify (if req.chain_type.getD "monad" == "sui" then req.user else req.challenge)
          req.signature = .ok a ∧ req.user ≠ a)) :
    handle_verify db verify balance_of restrict_ok req
      = .ok (db, ⟨.ok, ⟨true, none⟩, none, none⟩) := by
  have hvalid : (req.chain_type.getD "monad" == "monad"
      || req.chain_type.getD "monad" == "sui") = true := by
    rcases hchain with h | h <;> simp [h]
  unfold handle_verify
  dsimp only
  rw [hbot]
  dsimp only
  rw [if_pos hvalid]
  rcases hfail with ⟨e, he⟩ | ⟨a, ha, hne⟩
  · rw [he]
  · rw [ha]
    dsimp only
    rw [if_neg (by simp [hne])]

/-- C4 witness: a concrete bad-signature request receives the silent
`success: true` response with the database untouched. -/
theorem C4_verify_failure_silent_witness :
    handle_verify ⟨[], [], [⟨"s", "monad", "tok", "g"⟩]⟩
        (fun _ _ => .error "Invalid signature hex")
        (fun _ _ => .ok 5) true
        ⟨"123", "g", "zz", "0xabc", none⟩
      = .ok (⟨[], [], [⟨"s", "monad", "tok", "g"⟩]⟩, ⟨.ok, ⟨true, none⟩, none, none⟩) :=
  C4_verify_failure_silent ⟨[], [], [⟨"s", "monad", "tok", "g"⟩]⟩
    (fun _ _ => .error "Invalid signature hex") (fun _ _ => .ok 5) true
    ⟨"123", "g", "zz", "0xabc", none⟩ ⟨"s", "monad", "tok", "g"⟩
    (Or.inl rfl) rfl (Or.inl ⟨"Invalid signature hex", rfl⟩)

/-- C10: when the recovered address matches the claimed user and the live
share balance is positive (with a bot registered for the chat and a
supported chain type), `handle_verify` parses the request's `challenge`
field as a `u64` Telegram id with `unwrap()`, so a challenge that is not a
decimal integer makes the handler panic instead of returning an error
response. -/
theorem C10_nonnumeric_challenge_panics (db : Db)
    (verify : String → String → Except String String)
    (balance_of : String → String → Except String Nat) (restrict_ok : Bool)
    (req : ChallengeRequest) (bot : TelegramBotRow) (n : Nat)
    (hchain : req.chain_type.getD "monad" = "monad" ∨ req.chain_type.getD "monad" = "sui")
    (hbot : findTelegramBotByChat db req.chat_id (req.chain_type.getD "monad") = some bot)
    (hver : verify (if req.chain_type.getD "monad" == "sui" then req.user else req.challenge)
        req.signature = .ok req.user)
    (hbal : balance_of bot.subject_address req.user = .ok n) (hpos : 0 < n)
    (hparse : parse_u64 req.challenge = none) :
    handle_verify db verify balance_of restrict_ok req = .error () := by
  have hvalid : (req.chain_type.getD "monad" == "monad"
      || req.chain_type.getD "monad" == "sui") = true := by
    rcases hchain with h | h <;> simp [h]
  unfold handle_verify
  dsimp only
  rw [hbot]
  dsimp only
  rw [if_pos hvalid, hver]
  dsimp only
  rw [if_pos (by simp), hbal]
  dsimp only
  rw [if_pos (by simp [hpos]), hparse]

/-- C10 witness: a matching verification with positive balance and the
non-numeric challenge `"not-a-number"` panics. -/
theorem C10_nonnumeric_challenge_panics_witness :
    handle_verify ⟨[], [], [⟨"s", "monad", "tok", "g"⟩]⟩
        (fun _ _ => .ok "0xabc") (fun _ _ => .ok 5) true
        ⟨"not-a-number", "g", "sig", "0xabc", none⟩ = .error () :=
  C10_nonnumeric_challenge_panics ⟨[], [], [⟨"s", "monad", "tok", "g"⟩]⟩
    (fun _ _ => .ok "0xabc") (fun _ _ => .ok 5) true
    ⟨"not-a-number", "g", "sig", "0xabc", none⟩ ⟨"s", "monad", "tok", "g"⟩ 5
    (Or.inl rfl) rfl rfl rfl (by decide) rfl

/-! # Claim C7 -/

/-- C7: `SuiBlockchain::verify_signature` returns the malformed-signature
error exactly when the supplied signature string is not valid base64; every
signature that does decode as base64 yields `Ok` with the caller-supplied
challenge string as the recovered identity, independent of the signature's
decoded contents — no cryptographic verification is performed. -/
theorem C7_sui_verify (challenge signature : String) :
    (base64Decode signature = none →
      sui_verify_signature challenge signature = .error "Cannot decode signature") ∧
    (∀ bytes, base64Decode signature = some bytes →
      sui_verify_signature challenge signature = .ok challenge) := by
  constructor
  · intro h
    unfold sui_verify_signature
    rw [h]
  · intro bytes h
    unfold sui_verify_signature
    rw [h]

/-- C7 witness: `"!!!!"` is not base64 and is rejected; `"QUJD"` decodes
(to bytes the result ignores) and the claimed challenge comes back. -/
theorem C7_sui_verify_witness :
    base64Decode "!!!!" = none ∧
    sui_verify_signature "0xabc" "!!!!" = .error "Cannot decode signature" ∧
    base64Decode "QUJD" = some [65, 66, 67] ∧
    sui_verify_signature "0xabc" "QUJD" = .ok "0xabc" :=
  ⟨rfl, (C7_sui_verify "0xabc" "!!!!").1 rfl, rfl,
   (C7_sui_verify "0xabc" "QUJD").2 [65, 66, 67] rfl⟩

/-! # Claim C8 -/

/-- C8 counterexample: the two-character string holding an empty JSON object
is not valid JSON *for an event cursor* (no `txDigest`/`eventSeq` fields),
yet the pagination resume passes it through as-is instead of falling back to
the placeholder cursor: the code parses a stored cursor as a *generic* JSON
value, never checking the event-cursor shape. -/
theorem C8_counterexample :
    isEventCursorJson "\x7b\x7d" = false ∧
    cursor_param (some "\x7b\x7d") = some (Json.obj []) ∧
    Json.obj [] ≠ placeholderCursor "\x7b\x7d" := by
  refine ⟨rfl, rfl, ?_⟩
  intro h
  simp [placeholderCursor] at h

/-- C8 (amended): for every stored cursor string that does not parse as JSON
*at all* (including any string whose trimmed form does not start with an
opening brace), the cursor adapter's pagination resume does not panic: it
deterministically falls back to the placeholder cursor whose `txDigest` is
64 zero characters and whose `eventSeq` is the original string, and the sync
loop continues.  A string that does parse as JSON is sent unchanged, even
when it is not shaped like an event cursor. -/
theorem C8_cursor_fallback (s : String)
    (h : trimmed_starts_with_brace s = false ∨ parseJson s = none) :
    cursor_param (some s) = some (placeholderCursor s) := by
  unfold cursor_param
  dsimp only
  rcases h with h | h
  · rw [h]
    simp
  · rw [h]
    split <;> rfl

/-- C8 witness: the non-JSON cursor string `"garbage"` resumes with the
zero-digest placeholder cursor carrying the original string. -/
theorem C8_cursor_fallback_witness :
    cursor_param (some "garbage") = some (placeholderCursor "garbage") :=
  C8_cursor_fallback "garbage" (Or.inr rfl)

/-! # Claim C6 -/

/-- C6: in every iteration of the Monad sync loop in which the checkpoint is
strictly behind the chain head, the fetched batch window is
`checkpoint → min(checkpoint + 100, head)` (`BLOCK_BATCH_SIZE = 100`), so
the window spans at most 100 blocks. -/
theorem C6_batch_window (last_synced_block current_block : Nat)
    (fetch : Option (List Trade)) (write_ok : Bool)
    (hbehind : last_synced_block < current_block) :
    (monad_sync_iter last_synced_block ⟨some current_block, fetch, write_ok⟩).2.head?
      = some (SyncAction.fetchWindow last_synced_block
          (min (last_synced_block + 100) current_block)) ∧
    min (last_synced_block + 100) current_block - last_synced_block ≤ 100 := by
  constructor
  · unfold monad_sync_iter
    dsimp only
    rw [if_neg (by omega)]
    cases fetch <;> rfl
  · omega

/-- C6 witness: from checkpoint 100 with head 500 the window is
`100 → 200`. -/
theorem C6_batch_window_witness :
    (monad_sync_iter 100 ⟨some 500, some [], true⟩).2.head?
      = some (SyncAction.fetchWindow 100 (min (100 + 100) 500)) ∧
    min (100 + 100) 500 - 100 ≤ 100 :=
  C6_batch_window 100 500 (some []) true (by decide)

/-! # Claim C5 -/

/-- Applying events writes no checkpoint. -/
theorem writtenPositions_applies (events : List Trade) :
    writtenPositions (events.map SyncAction.applyEvent) = [] := by
  induction events with
  | nil => rfl
  | cons e rest ih => simp [writtenPositions, List.filterMap_cons]

/-- One position per leading action. -/
theorem writtenPositions_cons (a : SyncAction) (l : List SyncAction) :
    writtenPositions (a :: l) =
      (match a with | SyncAction.writeCheckpoint p => [p] | _ => []) ++ writtenPositions l := by
  cases a <;> simp [writtenPositions, List.filterMap_cons]

/-- `writtenPositions` distributes over append. -/
theorem writtenPositions_append (l1 l2 : List SyncAction) :
    writtenPositions (l1 ++ l2) = writtenPositions l1 ++ writtenPositions l2 :=
  List.filterMap_append l1 l2 _

/-- Each Monad iteration either keeps the checkpoint and writes nothing,
or writes exactly its new, no-smaller checkpoint. -/
theorem monad_sync_iter_cases (last : Nat) (inp : MonadIterInput) :
    ((monad_sync_iter last inp).1 = last ∧
      writtenPositions (monad_sync_iter last inp).2 = []) ∨
    (last ≤ (monad_sync_iter last inp).1 ∧
      writtenPositions (monad_sync_iter last inp).2 = [(monad_sync_iter last inp).1]) := by
  unfold monad_sync_iter
  cases hh : inp.head with
  | none => exact Or.inl ⟨rfl, rfl⟩
  | some current =>
    dsimp only
    by_cases hle : current ≤ last
    · rw [if_pos hle]
      exact Or.inl ⟨rfl, rfl⟩
    · rw [if_neg hle]
      cases hf : inp.fetch with
      | none => exact Or.inl ⟨rfl, rfl⟩
      | some events =>
        dsimp only
        cases hw : inp.write_ok with
        | false =>
          refine Or.inl ⟨rfl, ?_⟩
          simp [writtenPositions_cons, writtenPositions_append, writtenPositions_applies,
            writtenPositions]
        | true =>
          refine Or.inr ⟨by simp; omega, ?_⟩
          simp [writtenPositions_cons, writtenPositions_append, writtenPositions_applies,
            writtenPositions]

/-- The checkpoint positions a Monad run writes are non-decreasing, starting
from the seed checkpoint. -/
theorem monad_run_monotone (inputs : List MonadIterInput) : ∀ last : Nat,
    List.Chain' (· ≤ ·) (last :: writtenPositions (monad_sync_run last inputs).2) := by
  induction inputs with
  | nil =>
    intro last
    simp [monad_sync_run, writtenPositions]
  | cons inp rest ih =>
    intro last
    have hrun : (monad_sync_run last (inp :: rest)).2
        = (monad_sync_iter last inp).2
          ++ (monad_sync_run (monad_sync_iter last inp).1 rest).2 := rfl
    rw [hrun, writtenPositions_append]
    rcases monad_sync_iter_cases last inp with ⟨h1, h2⟩ | ⟨h1, h2⟩
    · rw [h2, h1]
      simpa using ih last
    · rw [h2, List.singleton_append]
      exact List.chain'_cons.mpr ⟨h1, ih _⟩

/-- A Monad iteration whose event fetch failed keeps the checkpoint and
writes nothing. -/
theorem monad_sync_iter_fetch_failure (last : Nat) (inp : MonadIterInput)
    (h : inp.fetch = none) :
    (monad_sync_iter last inp).1 = last ∧
    writtenPositions (monad_sync_iter last inp).2 = [] := by
  unfold monad_sync_iter
  cases hh : inp.head with
  | none => exact ⟨rfl, rfl⟩
  | some current =>
    dsimp only
    by_cases hle : current ≤ last
    · rw [if_pos hle]
      exact ⟨rfl, rfl⟩
    · rw [if_neg hle, h]
      exact ⟨rfl, rfl⟩

/-- C5 counterexample: the Sui surrogate position is a hash of the leading
16 hex digits of the transaction digest, so two consecutive *successful*
batches can write a huge position and then `0`: the persisted positions of
the cursor adapter are not non-decreasing, refuting the claim's "holds for
the cursor adapter's numeric surrogate" part. -/
theorem C5_counterexample :
    sui_sync_run none
      [⟨some ⟨[], some ⟨"ffffffffffffffff", "0"⟩, true⟩, true⟩,
       ⟨some ⟨[], some ⟨"0000000000000000", "1"⟩, true⟩, true⟩]
      = .ok (some (serializeEventID ⟨"0000000000000000", "1"⟩),
          [SyncAction.writeCheckpoint 18446744073709551615, SyncAction.sleepSecs 1,
           SyncAction.writeCheckpoint 0, SyncAction.sleepSecs 1]) ∧
    writtenPositions
        [SyncAction.writeCheckpoint 18446744073709551615, SyncAction.sleepSecs 1,
         SyncAction.writeCheckpoint 0, SyncAction.sleepSecs 1]
      = [18446744073709551615, 0] ∧
    ¬ List.Chain' (· ≤ ·) [18446744073709551615, 0] := by
  refine ⟨rfl, rfl, ?_⟩
  intro hch
  exact absurd (List.chain'_cons.mp hch).1 (by decide)

/-- C5 (amended): for the block-range (Monad) adapter the persisted
checkpoint is non-decreasing across every run, a fetch failure leaves it
unchanged, and each successful iteration's single write happens only after
the whole batch has been fetched and every event applied.  For the cursor
(Sui) adapter a fetch failure likewise changes nothing, and the write also
comes only after all of the page's events are applied — but its stored
position is only a digest-derived surrogate with no ordering guarantee (see
the counterexample), so monotonicity holds for the block adapter only. -/
theorem C5_checkpoint_behavior :
    (∀ (inputs : List MonadIterInput) (last : Nat),
      List.Chain' (· ≤ ·) (last :: writtenPositions (monad_sync_run last inputs).2)) ∧
    (∀ (last : Nat) (inp : MonadIterInput), inp.fetch = none →
      (monad_sync_iter last inp).1 = last ∧
      writtenPositions (monad_sync_iter last inp).2 = []) ∧
    (∀ (last current : Nat) (events : List Trade), ¬ current ≤ last →
      monad_sync_iter last ⟨some current, some events, true⟩
        = (min (last + 100) current,
           SyncAction.fetchWindow last (min (last + 100) current) ::
             events.map SyncAction.applyEvent
             ++ [SyncAction.writeCheckpoint (min (last + 100) current)]
             ++ [SyncAction.sleepSecs 1])) ∧
    (∀ (cursor : Option String) (write_ok : Bool),
      sui_sync_iter cursor ⟨none, write_ok⟩
        = .ok (cursor, [SyncAction.sleepSecs 10, SyncAction.sleepSecs 1])) ∧
    (∀ (cursor : Option String) (page : SuiEventPage) (next : EventID) (position : Nat),
      page.nextCursor = some next →
      digest_surrogate next.tx_digest = .ok position →
      sui_sync_iter cursor ⟨some page, true⟩
        = .ok (some (serializeEventID next),
            page.data.map SyncAction.applyEvent
              ++ [SyncAction.writeCheckpoint position] ++ [SyncAction.sleepSecs 1])) := by
  refine ⟨fun inputs last => monad_run_monotone inputs last,
    monad_sync_iter_fetch_failure, ?_, ?_, ?_⟩
  · intro last current events hle
    unfold monad_sync_iter
    dsimp only
    rw [if_neg hle]
    simp
  · intro cursor write_ok
    rfl
  · intro cursor page next position hn hsur
    unfold sui_sync_iter
    dsimp only
    rw [hn]
    dsimp only
    rw [hsur]
    simp

/-- C5 witness: a short healthy Monad run keeps positions non-decreasing; a
failed fetch on either adapter changes nothing; successful iterations on
both adapters write only after applying the batch. -/
theorem C5_checkpoint_behavior_witness :
    List.Chain' (· ≤ ·)
      (0 :: writtenPositions
        (monad_sync_run 0 [⟨some 150, some [], true⟩, ⟨some 150, some [], true⟩]).2) ∧
    ((monad_sync_iter 7 ⟨some 150, none, true⟩).1 = 7 ∧
      writtenPositions (monad_sync_iter 7 ⟨some 150, none, true⟩).2 = []) ∧
    monad_sync_iter 0 ⟨some 150, some [⟨"t", "s", true, 1⟩], true⟩
      = (min (0 + 100) 150,
         SyncAction.fetchWindow 0 (min (0 + 100) 150) ::
           [(⟨"t", "s", true, 1⟩ : Trade)].map SyncAction.applyEvent
           ++ [SyncAction.writeCheckpoint (min (0 + 100) 150)]
           ++ [SyncAction.sleepSecs 1]) ∧
    sui_sync_iter (some "c") ⟨none, true⟩
      = .ok (some "c", [SyncAction.sleepSecs 10, SyncAction.sleepSecs 1]) ∧
    sui_sync_iter none ⟨some ⟨[], some ⟨"0000000000000000", "7"⟩, true⟩, true⟩
      = .ok (some (serializeEventID ⟨"0000000000000000", "7"⟩),
          ([] : List Trade).map SyncAction.applyEvent
            ++ [SyncAction.writeCheckpoint 0] ++ [SyncAction.sleepSecs 1]) :=
  ⟨C5_checkpoint_behavior.1 [⟨some 150, some [], true⟩, ⟨some 150, some [], true⟩] 0,
   C5_checkpoint_behavior.2.1 7 ⟨some 150, none, true⟩ rfl,
   C5_checkpoint_behavior.2.2.1 0 150 [⟨"t", "s", true, 1⟩] (by decide),
   C5_checkpoint_behavior.2.2.2.1 (some "c") true,
   C5_checkpoint_behavior.2.2.2.2 none ⟨[], some ⟨"0000000000000000", "7"⟩, true⟩
     ⟨"0000000000000000", "7"⟩ 0 rfl rfl⟩

end SuiOverflow
